import Mathlib

/-!
# Verification of the cluster-monitoring core of a MongoDB driver prototype

Shallow embedding of the topology model and transition function from
`pymongo/cluster_description.py`, the ismaster classifier from
`pymongo/ismaster.py` / `pymongo/server_description.py`, the probe-retry
logic from `pymongo/monitor.py`, and the wire-version compatibility check
consumed by `Cluster.select_servers` in `pymongo/cluster.py`.

Conventions of the embedding:
* Python dictionaries keyed by address are modelled as association lists
  `List (Address × ServerDescription)`; dict assignment replaces the value
  at an existing key in place, insertion appends, deletion filters.
* Python code paths that can raise (`assert`, `raise`, dict `KeyError`,
  `"%d" % None`) are modelled in `Except PyError`.
* Python truthiness tests (`if not doc.get('ok')`, `elif doc.get('setName')`)
  are modelled by explicit `truthy*` helpers on `Option` values.
-/

set_option autoImplicit false

deriving instance DecidableEq for Except

namespace Pymongo

/-- A `(host, port)` pair, as used throughout the driver. -/
abbrev Address := String × Nat

/-- `ServerType` from server_description.py / ismaster.py. -/
inductive ServerType where
  | Unknown
  | Mongos
  | RSPrimary
  | RSSecondary
  | RSArbiter
  | RSOther
  | RSGhost
  | Standalone
deriving DecidableEq, Repr

/-- `ClusterType` from cluster_description.py. -/
inductive ClusterType where
  | Single
  | ReplicaSetNoPrimary
  | ReplicaSetWithPrimary
  | Sharded
  | Unknown
deriving DecidableEq, Repr

/-- Modelled from the spec: `pymongo.read_preferences.MovingAverage` is not
under src/.  The spec describes it as a streaming round-trip-time estimator
that is updated without mutating prior samples, via `clone_with(sample)`;
we keep the sample list. -/
structure MovingAverage where
  samples : List Int
deriving DecidableEq, Repr

/-- `ServerDescription` (server_description.py lines 99-215).  Field defaults
are the constructor defaults: `server_type=ServerType.Unknown`, everything
else `None`.  `all_hosts` defaults to `None` in the source; it is only read
on descriptions built from an ismaster reply, where it is always a list, so
we model it as a plain list defaulting to `[]`.  Fields that no claim
touches (tags, primary, max sizes) are omitted. -/
structure ServerDescription where
  address : Address
  server_type : ServerType := ServerType.Unknown
  round_trip_times : Option MovingAverage := none
  all_hosts : List Address := []
  set_name : Option String := none
  min_wire_version : Option Int := none
  max_wire_version : Option Int := none
deriving DecidableEq, Repr

/-- `ServerDescription(address)`: the default constructor call used for a
fresh, never-contacted server (server type `Unknown`, no round-trip
history). -/
def ServerDescription.mkUnknown (a : Address) : ServerDescription :=
  { address := a }

/-- Python errors the modelled code can raise. -/
inductive PyError where
  | assertionError
  | keyError
  | typeError
  | notImplementedError
  | configurationError (msg : String)
deriving DecidableEq, Repr

/-- Sequencing of two Python statements where the first can raise: the
exception propagates, otherwise execution continues with the result. -/
def pyBind {A B : Type} (x : Except PyError A) (f : A -> Except PyError B) : Except PyError B :=
  match x with
  | Except.error e => Except.error e
  | Except.ok a => f a

theorem pyBind_ok {A B : Type} (a : A) (f : A -> Except PyError B) :
    pyBind (Except.ok a) f = f a := rfl

theorem pyBind_error {A B : Type} (e : PyError) (f : A -> Except PyError B) :
    pyBind (Except.error e) f = Except.error e := rfl

/-! ## The ismaster classifier (ismaster.py lines 33-54) -/

/-- A decoded ismaster response document.  Only the fields the classifier
and the parser read are modelled; each is optional, mirroring
`doc.get(...)` on a Python dict. -/
structure IsMasterDoc where
  ok : Option Int := none
  isreplicaset : Option Bool := none
  setName : Option String := none
  hidden : Option Bool := none
  ismaster : Option Bool := none
  secondary : Option Bool := none
  arbiterOnly : Option Bool := none
  msg : Option String := none
  hosts : List String := []
  passives : List String := []
  arbiters : List String := []
  minWireVersion : Option Int := none
  maxWireVersion : Option Int := none
deriving DecidableEq, Repr

/-- Python truthiness of an optional integer: absent and `0` are falsy. -/
def truthyInt : Option Int → Bool
  | none => false
  | some n => decide (n ≠ 0)

/-- Python truthiness of an optional boolean: absent and `False` are falsy. -/
def truthyBool : Option Bool → Bool
  | none => false
  | some b => b

/-- Python truthiness of an optional string: absent and `""` are falsy. -/
def truthyStr : Option String → Bool
  | none => false
  | some s => decide (s ≠ "")

/-- `get_server_type(doc)` (ismaster.py lines 33-54; the copy in
server_description.py lines 34-54 is identical).  The source tests each
field with Python truthiness (`if not doc.get('ok')`,
`elif doc.get('setName')`, ...), not equality with a particular value. -/
def get_server_type (doc : IsMasterDoc) : ServerType :=
  if !(truthyInt doc.ok) then ServerType.Unknown
  else if truthyBool doc.isreplicaset then ServerType.RSGhost
  else if truthyStr doc.setName then
    (if truthyBool doc.hidden then ServerType.RSOther
     else if truthyBool doc.ismaster then ServerType.RSPrimary
     else if truthyBool doc.secondary then ServerType.RSSecondary
     else if truthyBool doc.arbiterOnly then ServerType.RSArbiter
     else ServerType.RSOther)
  else if doc.msg = some "isdbgrid" then ServerType.Mongos
  else ServerType.Standalone

/-- Modelled from the spec: `pymongo.common.partition_node` is not under
src/.  Spec §4.1: each host string may be `"host"` or `"host:port"`; a bare
host defaults to port 27017. -/
def partition_node (node : String) : Address :=
  match node.splitOn ":" with
  | [host, port] => (host, port.toNat?.getD 27017)
  | _ => (node, 27017)

/-- `IsMaster.all_hosts` (ismaster.py lines 70-75): hosts, passives and
arbiters, each parsed with `partition_node`. -/
def IsMasterDoc.allHosts (doc : IsMasterDoc) : List Address :=
  (doc.hosts ++ doc.passives ++ doc.arbiters).map partition_node

/-! ## ClusterDescription (cluster_description.py lines 43-156) -/

/-- The servers dict of a `ClusterDescription`, as an association list. -/
abbrev ServerMap := List (Address × ServerDescription)

/-- Addresses present in a server map. -/
def keys (l : ServerMap) : List Address := l.map Prod.fst

/-- `address in self._server_descriptions`. -/
def hasAddress (l : ServerMap) (a : Address) : Bool :=
  l.any fun p => decide (p.1 = a)

/-- Dict assignment `self._server_descriptions[address] = sd` for a key that
is already present: the value is replaced in place. -/
def replaceEntry (a : Address) (s : ServerDescription) (l : ServerMap) : ServerMap :=
  l.map fun p => if p.1 = a then (a, s) else p

/-- `ClusterDescription` (cluster_description.py lines 43-156).  The
`_frozen` flag is omitted: nothing under src/ ever calls `freeze()`, and
all claims concern unfrozen descriptions. -/
structure ClusterDescription where
  cluster_type : ClusterType
  set_name : Option String
  servers : ServerMap
deriving DecidableEq, Repr

/-- `has_server` (line 75). -/
def ClusterDescription.has_server (cd : ClusterDescription) (a : Address) : Bool :=
  hasAddress cd.servers a

/-- `replace_server_description` (lines 84-88): asserts the address is
present, then assigns. -/
def ClusterDescription.replace_server_description
    (cd : ClusterDescription) (sd : ServerDescription) : Except PyError ClusterDescription :=
  if cd.has_server sd.address then
    Except.ok { cd with servers := replaceEntry sd.address sd cd.servers }
  else Except.error PyError.assertionError

/-- `add_server_description` (lines 78-82): asserts the address is absent,
then assigns (dict insertion). -/
def ClusterDescription.add_server_description
    (cd : ClusterDescription) (sd : ServerDescription) : Except PyError ClusterDescription :=
  if cd.has_server sd.address then Except.error PyError.assertionError
  else Except.ok { cd with servers := cd.servers ++ [(sd.address, sd)] }

/-- `remove_address` (lines 90-92): `dict.pop(address, None)` never
raises. -/
def ClusterDescription.remove_address
    (cd : ClusterDescription) (a : Address) : ClusterDescription :=
  { cd with servers := cd.servers.filter fun p => decide (p.1 ≠ a) }

/-! ## The topology transition function (cluster_description.py lines 159-301) -/

/-- The `cluster_types` dict (lines 161-167); looking up a missing key is a
`KeyError`. -/
def cluster_types : ServerType → Except PyError ClusterType
  | ServerType.Mongos => Except.ok ClusterType.Sharded
  | ServerType.RSPrimary => Except.ok ClusterType.ReplicaSetWithPrimary
  | ServerType.RSSecondary => Except.ok ClusterType.ReplicaSetNoPrimary
  | ServerType.RSArbiter => Except.ok ClusterType.ReplicaSetNoPrimary
  | ServerType.RSOther => Except.ok ClusterType.ReplicaSetNoPrimary
  | _ => Except.error PyError.keyError

/-- `_check_has_primary` (lines 293-300): asserts the cluster type is
`ReplicaSetWithPrimary`, then demotes to `ReplicaSetNoPrimary` when no
server is an `RSPrimary`. -/
def check_has_primary (cd : ClusterDescription) : Except PyError ClusterDescription :=
  if cd.cluster_type = ClusterType.ReplicaSetWithPrimary then
    Except.ok
      (if cd.servers.any (fun p => decide (p.2.server_type = ServerType.RSPrimary)) then cd
       else { cd with cluster_type := ClusterType.ReplicaSetNoPrimary })
  else Except.error PyError.assertionError

/-- The loop at lines 245-253: scan the servers in order; the first server
at a different address whose type is `RSPrimary` is replaced by a fresh
default `ServerDescription` (type `Unknown`), then the loop breaks. -/
def reset_prior_primary (cd : ClusterDescription) (addr : Address) :
    Except PyError ClusterDescription :=
  match cd.servers.find?
      (fun p => decide (p.1 ≠ addr ∧ p.2.server_type = ServerType.RSPrimary)) with
  | some p => cd.replace_server_description (ServerDescription.mkUnknown p.1)
  | none => Except.ok cd

/-- The loop at lines 256-258: add a fresh default description for every
reported host not already present. -/
def add_new_hosts : ClusterDescription → List Address → Except PyError ClusterDescription
  | cd, [] => Except.ok cd
  | cd, a :: rest =>
    if cd.has_server a then add_new_hosts cd rest
    else
      pyBind (cd.add_server_description (ServerDescription.mkUnknown a))
        (fun cd1 => add_new_hosts cd1 rest)

/-- The loop at lines 260-264: remove every address the primary did not
report. -/
def remove_not_in_hosts (cd : ClusterDescription) (hosts : List Address) : ClusterDescription :=
  { cd with servers := cd.servers.filter fun p => decide (p.1 ∈ hosts) }

/-- Lines 244-264 of `_update_rs_with_primary_from_primary`: reset a prior
primary, discover new hosts, drop unreported hosts. -/
def primary_membership_update (cd : ClusterDescription) (sd : ServerDescription) :
    Except PyError ClusterDescription :=
  pyBind (reset_prior_primary cd sd.address) fun cd1 =>
    pyBind (add_new_hosts cd1 sd.all_hosts) fun cd2 =>
      Except.ok (remove_not_in_hosts cd2 sd.all_hosts)

/-- `_update_rs_with_primary_from_primary` (lines 232-264).  In the
wrong-set-name branch the source executes
`cd.type = ClusterType.ReplicaSetNoPrimary`, which binds a brand-new
attribute named `type` on the object; the property is `cluster_type`, so
the cluster type is in fact left unchanged there. -/
def update_rs_with_primary_from_primary (cd : ClusterDescription) (sd : ServerDescription) :
    Except PyError ClusterDescription :=
  if cd.set_name = none then
    primary_membership_update { cd with set_name := sd.set_name } sd
  else if cd.set_name = sd.set_name then
    primary_membership_update cd sd
  else
    Except.ok (cd.remove_address sd.address)

/-- `_update_rs_without_primary` (lines 277-290). -/
def update_rs_without_primary (cd : ClusterDescription) (sd : ServerDescription) :
    Except PyError ClusterDescription :=
  if cd.set_name = none then
    add_new_hosts { cd with set_name := sd.set_name } sd.all_hosts
  else if cd.set_name = sd.set_name then
    add_new_hosts cd sd.all_hosts
  else
    Except.ok (cd.remove_address sd.address)

/-- `_update_rs_with_primary_from_member` (lines 267-274): asserts the set
name is known, removes the member on a set-name mismatch, and always ends
with `_check_has_primary`. -/
def update_rs_with_primary_from_member (cd : ClusterDescription) (sd : ServerDescription) :
    Except PyError ClusterDescription :=
  if cd.set_name = none then Except.error PyError.assertionError
  else
    check_has_primary (if cd.set_name = sd.set_name then cd else cd.remove_address sd.address)

/-- `_update_sharded` (lines 227-229). -/
def update_sharded (cd : ClusterDescription) (sd : ServerDescription) : ClusterDescription :=
  if sd.server_type = ServerType.Mongos then cd else cd.remove_address sd.address

/-- Lines 184-189: while the cluster type is `Unknown`, a `Standalone`
response removes the server, and any type other than `Unknown`/`RSGhost`
re-types the cluster via the `cluster_types` dict. -/
def update_unknown_phase (cd : ClusterDescription) (sd : ServerDescription) :
    Except PyError ClusterDescription :=
  if cd.cluster_type = ClusterType.Unknown then
    if sd.server_type = ServerType.Standalone then
      Except.ok (cd.remove_address sd.address)
    else if sd.server_type = ServerType.Unknown ∨ sd.server_type = ServerType.RSGhost then
      Except.ok cd
    else
      pyBind (cluster_types sd.server_type)
        (fun ct => Except.ok { cd with cluster_type := ct })
  else Except.ok cd

/-- Lines 191-224: dispatch on the (possibly re-typed) cluster type. -/
def dispatch_phase (cd : ClusterDescription) (sd : ServerDescription) :
    Except PyError ClusterDescription :=
  if cd.cluster_type = ClusterType.Sharded then
    Except.ok (update_sharded cd sd)
  else if cd.cluster_type = ClusterType.ReplicaSetNoPrimary then
    (if sd.server_type = ServerType.Standalone ∨ sd.server_type = ServerType.Mongos then
      Except.ok (cd.remove_address sd.address)
    else if sd.server_type = ServerType.RSPrimary then
      update_rs_with_primary_from_primary
        { cd with cluster_type := ClusterType.ReplicaSetWithPrimary } sd
    else if sd.server_type = ServerType.RSSecondary ∨ sd.server_type = ServerType.RSArbiter
        ∨ sd.server_type = ServerType.RSOther then
      update_rs_without_primary cd sd
    else Except.ok cd)
  else if cd.cluster_type = ClusterType.ReplicaSetWithPrimary then
    (if sd.server_type = ServerType.Standalone ∨ sd.server_type = ServerType.Mongos then
      check_has_primary (cd.remove_address sd.address)
    else if sd.server_type = ServerType.RSPrimary then
      update_rs_with_primary_from_primary cd sd
    else if sd.server_type = ServerType.RSSecondary ∨ sd.server_type = ServerType.RSArbiter
        ∨ sd.server_type = ServerType.RSOther then
      update_rs_with_primary_from_member cd sd
    else
      check_has_primary cd)
  else Except.ok cd

/-- `update_cluster_description` after the initial
`replace_server_description` (lines 178-224): the `Single` type returns at
once, then the Unknown phase runs, then the dispatch. -/
def update_after_replace (cd : ClusterDescription) (sd : ServerDescription) :
    Except PyError ClusterDescription :=
  if cd.cluster_type = ClusterType.Single then Except.ok cd
  else
    pyBind (update_unknown_phase cd sd) (fun cd1 => dispatch_phase cd1 sd)

/-- `update_cluster_description(cd, sd)` (lines 170-224), the topology
transition function.  The source mutates `cd` in place; the model threads
the state. -/
def update_cluster_description (cd : ClusterDescription) (sd : ServerDescription) :
    Except PyError ClusterDescription :=
  pyBind (cd.replace_server_description sd) (fun cd1 => update_after_replace cd1 sd)

/-! ## Seeding and reachability (settings.py, cluster_description.py lines 22-32) -/

/-- `ClusterSettings` (settings.py): only the fields the topology model
reads.  The source replaces an empty seed list by
`[('localhost', 27017)]` at construction; `seeds` here is the stored,
already-defaulted list. -/
structure ClusterSettings where
  seeds : List Address
  set_name : Option String
deriving DecidableEq, Repr

/-- `settings.direct` (settings.py line 51): one seed and a falsy
set name. -/
def ClusterSettings.direct (s : ClusterSettings) : Bool :=
  decide (s.seeds.length = 1) && !(truthyStr s.set_name)

/-- `dict((s.address, s) for s in server_descriptions)`: later duplicates
overwrite in place. -/
def dict_of_servers (l : List ServerDescription) : ServerMap :=
  l.foldl
    (fun acc s =>
      if hasAddress acc s.address then replaceEntry s.address s acc else acc ++ [(s.address, s)])
    []

/-- `create_cluster_description(settings)` (cluster_description.py lines
22-32). -/
def create_cluster_description (settings : ClusterSettings) : ClusterDescription :=
  { cluster_type :=
      if settings.direct then ClusterType.Single
      else if settings.set_name ≠ none then ClusterType.ReplicaSetNoPrimary
      else ClusterType.Unknown
    set_name := settings.set_name
    servers := dict_of_servers (settings.seeds.map ServerDescription.mkUnknown) }

/-- The descriptions a Cluster can hold: the seed description followed by
any number of successful transitions, each triggered by a server already in
the map (`Cluster.on_change` drops descriptions for unknown addresses,
cluster.py lines 100-106). -/
inductive Reachable (settings : ClusterSettings) : ClusterDescription → Prop
  | seed : Reachable settings (create_cluster_description settings)
  | step {cd cd' : ClusterDescription} {sd : ServerDescription} :
      Reachable settings cd →
      cd.has_server sd.address = true →
      update_cluster_description cd sd = Except.ok cd' →
      Reachable settings cd'

/-! ## The Monitor probe (monitor.py lines 107-167) -/

/-- The `host:port` fragment `"%s:%d" % s.address` of the error message. -/
def host_port_clause (a : Address) : String :=
  a.1 ++ ":" ++ toString a.2

/-- The `"wire protocol versions %d through %d"` fragment of the error
message. -/
def wire_range_clause (mn mx : Int) : String :=
  "wire protocol versions " ++ toString mn ++ " through " ++ toString mx

/-- The full `ConfigurationError` message of lines 110-116. -/
def compat_error_message (a : Address) (mn mx minSup maxSup : Int) : String :=
  "Server at " ++ host_port_clause a ++ " uses " ++ wire_range_clause mn mx ++
    ", but PyMongo only supports " ++ toString minSup ++ " through " ++ toString maxSup

/-- One iteration of the `check_compatible` loop (lines 95-116).  The
comparisons guard on the bound being set (`is not None`); the `%d`
formatting of an unset bound in the message would itself raise a
`TypeError` before the `ConfigurationError` is constructed. -/
def check_compatible_one (s : ServerDescription) (minSup maxSup : Int) :
    Except PyError Unit :=
  let tooNew := match s.min_wire_version with
    | some v => decide (v > maxSup)
    | none => false
  let tooOld := match s.max_wire_version with
    | some v => decide (v < minSup)
    | none => false
  if tooNew || tooOld then
    match s.min_wire_version, s.max_wire_version with
    | some mn, some mx =>
        Except.error (PyError.configurationError
          (compat_error_message s.address mn mx minSup maxSup))
    | _, _ => Except.error PyError.typeError
  else Except.ok ()

/-- The `check_compatible` loop over the servers map. -/
def check_compatible_list : ServerMap → Int → Int → Except PyError Unit
  | [], _, _ => Except.ok ()
  | p :: rest, minSup, maxSup =>
    pyBind (check_compatible_one p.2 minSup maxSup)
      (fun _ => check_compatible_list rest minSup maxSup)

/-- `ClusterDescription.check_compatible` (lines 94-116). -/
def ClusterDescription.check_compatible (cd : ClusterDescription) (minSup maxSup : Int) :
    Except PyError Unit :=
  check_compatible_list cd.servers minSup maxSup

/-! ## Cluster (cluster.py) -/

/-- The Cluster runtime state the claims touch: the current description and
the single-shot `_opened` flag (cluster.py lines 34-42).  The per-address
Server objects (pool plus monitor) live behind `_servers`; their identity
is not needed for the claims below. -/
structure Cluster where
  description : ClusterDescription
  opened : Bool
deriving DecidableEq, Repr

/-- `Cluster.close` (cluster.py lines 124-125): the body is
`raise NotImplementedError()`, unconditionally. -/
def Cluster.close (_c : Cluster) : Except PyError Unit :=
  Except.error PyError.notImplementedError

/-! ## Specification-side descriptions used by the claims -/

/-- The hosts of `hosts` that are not yet in the key set `ks`, in iteration
order, each kept once (the source re-checks membership against the growing
map). -/
def missing_hosts (ks : List Address) : List Address → List Address
  | [] => []
  | a :: rest => if a ∈ ks then missing_hosts ks rest else a :: missing_hosts (ks ++ [a]) rest

/-- Fresh default (`Unknown`) map entries for the given addresses. -/
def fresh_entries (hosts : List Address) : ServerMap :=
  hosts.map fun a => (a, ServerDescription.mkUnknown a)

/-- Replace every entry (other than the one at `addr`) whose type is
`RSPrimary` by a fresh default description.  This follows the claim's
words («replace every other server currently typed RSPrimary with a fresh
Unknown-typed ServerDescription at the same address»); the source loop
breaks after the first such entry. -/
def reset_all_other_primaries (addr : Address) (l : ServerMap) : ServerMap :=
  l.map fun p =>
    if p.1 ≠ addr ∧ p.2.server_type = ServerType.RSPrimary
    then (p.1, ServerDescription.mkUnknown p.1) else p

/-- The servers map the primary-update claim describes: store `sd`, replace
every other primary by a fresh Unknown, insert fresh Unknowns for
unrepresented reported hosts, and drop every address the primary did not
report. -/
def primary_update_result_servers (cd : ClusterDescription) (sd : ServerDescription) : ServerMap :=
  let l1 := reset_all_other_primaries sd.address (replaceEntry sd.address sd cd.servers)
  (l1 ++ fresh_entries (missing_hosts (keys l1) sd.all_hosts)).filter
    fun p => decide (p.1 ∈ sd.all_hosts)

/-! ## Basic lemmas about the server map -/

theorem hasAddress_iff (l : ServerMap) (a : Address) :
    hasAddress l a = true ↔ a ∈ keys l := by
  simp [hasAddress, keys, List.any_eq_true, List.mem_map]

theorem keys_append (l m : ServerMap) : keys (l ++ m) = keys l ++ keys m := by
  simp [keys]

theorem keys_replaceEntry (a : Address) (s : ServerDescription) (l : ServerMap) :
    keys (replaceEntry a s l) = keys l := by
  induction l with
  | nil => rfl
  | cons p rest ih =>
    simp only [replaceEntry, List.map_cons, keys] at *
    by_cases h : p.1 = a
    · simp [h, ih]
    · simp [h, ih]

theorem replaceEntry_of_not_mem {a : Address} (s : ServerDescription) {l : ServerMap}
    (h : a ∉ keys l) : replaceEntry a s l = l := by
  induction l with
  | nil => rfl
  | cons p rest ih =>
    simp only [keys, List.map_cons, List.mem_cons, not_or] at h
    simp only [replaceEntry, List.map_cons]
    rw [if_neg (by exact fun hh => h.1 hh.symm)]
    have := ih (by simpa [keys] using h.2)
    simpa [replaceEntry] using this

theorem keys_reset_all (addr : Address) (l : ServerMap) :
    keys (reset_all_other_primaries addr l) = keys l := by
  induction l with
  | nil => rfl
  | cons p rest ih =>
    simp only [reset_all_other_primaries, List.map_cons, keys] at *
    by_cases h : p.1 ≠ addr ∧ p.2.server_type = ServerType.RSPrimary
    · simp [h, ih]
    · simp [h, ih]

/-- `add_new_hosts` never fails, and appends exactly the fresh default
descriptions of the reported hosts that were missing. -/
theorem add_new_hosts_eq (cd : ClusterDescription) (hosts : List Address) :
    add_new_hosts cd hosts =
      Except.ok { cd with servers :=
        cd.servers ++ fresh_entries (missing_hosts (keys cd.servers) hosts) } := by
  induction hosts generalizing cd with
  | nil => simp [add_new_hosts, missing_hosts, fresh_entries]
  | cons a rest ih =>
    by_cases h : cd.has_server a = true
    · have hk : a ∈ keys cd.servers := (hasAddress_iff _ _).mp h
      simp [add_new_hosts, h, missing_hosts, hk, ih]
    · have hk : a ∉ keys cd.servers := fun hm =>
        h ((hasAddress_iff _ _).mpr hm)
      have h' : cd.has_server a = false := by
        cases hs : cd.has_server a
        · rfl
        · exact absurd hs h
      rw [add_new_hosts, if_neg (by simp [h']),
        ClusterDescription.add_server_description,
        if_neg (by simp [ServerDescription.mkUnknown, h']), pyBind_ok, ih]
      simp only [missing_hosts, if_neg hk]
      simp [keys_append, keys, fresh_entries, ServerDescription.mkUnknown,
        List.append_assoc]

end Pymongo

namespace Pymongo

/-! ## Claim C7: the Single cluster type is sticky -/

/-- Claim C7: for every ClusterDescription `cd` with `clusterType = Single`
and every ServerDescription `sd` whose address is in `cd`, the transition
returns a description whose cluster type is still `Single` and whose
address set equals `cd`'s; only the entry stored at `sd.address` is
replaced. -/
theorem claim_C7_single_sticky (cd : ClusterDescription) (sd : ServerDescription)
    (h1 : cd.cluster_type = ClusterType.Single)
    (h2 : cd.has_server sd.address = true) :
    ∃ cd', update_cluster_description cd sd = Except.ok cd' ∧
      cd'.cluster_type = ClusterType.Single ∧
      keys cd'.servers = keys cd.servers ∧
      cd'.servers = replaceEntry sd.address sd cd.servers := by
  refine ⟨{ cd with servers := replaceEntry sd.address sd cd.servers },
    ?_, h1, keys_replaceEntry _ _ _, rfl⟩
  rw [update_cluster_description, ClusterDescription.replace_server_description,
    if_pos h2, pyBind_ok, update_after_replace, if_pos (show _ from h1)]

/-- Witness for C7 at a concrete single-server topology. -/
def C7_cd : ClusterDescription :=
  { cluster_type := ClusterType.Single
    set_name := none
    servers := [(("a", 27017), ServerDescription.mkUnknown ("a", 27017))] }

/-- A Standalone description for the same address. -/
def C7_sd : ServerDescription :=
  { address := ("a", 27017), server_type := ServerType.Standalone }

theorem claim_C7_witness :
    ∃ cd', update_cluster_description C7_cd C7_sd = Except.ok cd' ∧
      cd'.cluster_type = ClusterType.Single ∧
      keys cd'.servers = keys C7_cd.servers ∧
      cd'.servers = replaceEntry C7_sd.address C7_sd C7_cd.servers :=
  claim_C7_single_sticky C7_cd C7_sd (by decide) (by decide)

/-! ## Claim C9: Cluster.close -/

/-- Claim C9 (code bug): `Cluster.close` is specified to close all Servers
and to make later calls fail, but the body of `Cluster.close` in cluster.py
(lines 124-125) is `raise NotImplementedError()` — the very first call
raises and nothing is closed. -/
theorem claim_C9_close_unimplemented (c : Cluster) :
    Cluster.close c = Except.error PyError.notImplementedError := rfl

/-! ## Claims C1 and C4: the wrong-set-name primary bug -/

/-- Seeds `{("a", 27017)}` with replica-set name `"rs"`. -/
def C1_settings : ClusterSettings :=
  { seeds := [("a", 27017)], set_name := some "rs" }

/-- An `RSPrimary` description from `a` that claims set name `"other"`. -/
def C1_sd : ServerDescription :=
  { address := ("a", 27017)
    server_type := ServerType.RSPrimary
    set_name := some "other"
    all_hosts := [("a", 27017)] }

/-- What the transition actually produces on that input: the server is
removed but — because line 241 assigns the nonexistent attribute `type`
instead of the `cluster_type` property — the cluster type stays
`ReplicaSetWithPrimary`. -/
def C1_result : ClusterDescription :=
  { cluster_type := ClusterType.ReplicaSetWithPrimary
    set_name := some "rs"
    servers := [] }

/-- Claim C1 (code bug): the invariant «clusterType = ReplicaSetWithPrimary
iff some server is RSPrimary» is violated on a reachable description.  One
transition from the seed description of `C1_settings`, driven by a primary
with the wrong set name, yields a description typed
`ReplicaSetWithPrimary` whose servers map is empty. -/
theorem claim_C1_invariant_violated :
    Reachable C1_settings C1_result ∧
    C1_result.cluster_type = ClusterType.ReplicaSetWithPrimary ∧
    C1_result.servers = [] :=
  ⟨@Reachable.step C1_settings (create_cluster_description C1_settings) C1_result C1_sd
    Reachable.seed (by decide) (by decide), rfl, rfl⟩

/-- The one-server description `{a ↦ Unknown}` of type
`ReplicaSetNoPrimary` with set name `"rs"`: the seed description of
`C1_settings`, written out. -/
def C4_cd : ClusterDescription :=
  { cluster_type := ClusterType.ReplicaSetNoPrimary
    set_name := some "rs"
    servers := [(("a", 27017), ServerDescription.mkUnknown ("a", 27017))] }

/-- An `RSPrimary` from `a` claiming set name `"other"` (≠ `"rs"`). -/
def C4_sd : ServerDescription :=
  { address := ("a", 27017)
    server_type := ServerType.RSPrimary
    set_name := some "other"
    all_hosts := [("a", 27017)] }

/-- Claim C4 (code bug): on a set-name mismatch the primary's address is
removed as specified, but the resulting cluster type is
`ReplicaSetWithPrimary`, not the specified `ReplicaSetNoPrimary`: the
assignment at cluster_description.py line 241 writes to a fresh `type`
attribute rather than to the `cluster_type` property. -/
theorem claim_C4_wrong_set_name_divergence :
    update_cluster_description C4_cd C4_sd =
      Except.ok { cluster_type := ClusterType.ReplicaSetWithPrimary
                  set_name := some "rs"
                  servers := [] } := by decide

end Pymongo

namespace Pymongo

/-! ## Claim C8: non-primaries never shrink the map -/

theorem mem_replaceEntry_of_ne {a : Address} {s : ServerDescription}
    {p : Address × ServerDescription} {l : ServerMap}
    (hp : p ∈ l) (hne : p.1 ≠ a) : p ∈ replaceEntry a s l := by
  rw [replaceEntry]
  exact List.mem_map.mpr ⟨p, hp, if_neg hne⟩

/-- Claim C8: with `clusterType = ReplicaSetNoPrimary` and a matching (or
adopted) set name, a response from an `RSSecondary`/`RSArbiter`/`RSOther`
removes nothing: the entry at `sd.address` is replaced, a fresh `Unknown`
entry is appended for each reported host not already present, and every
other existing entry survives unchanged. -/
theorem claim_C8_without_primary_frame (cd : ClusterDescription) (sd : ServerDescription)
    (h1 : cd.cluster_type = ClusterType.ReplicaSetNoPrimary)
    (h2 : sd.server_type = ServerType.RSSecondary ∨ sd.server_type = ServerType.RSArbiter ∨
      sd.server_type = ServerType.RSOther)
    (h3 : cd.has_server sd.address = true)
    (h4 : cd.set_name = none ∨ cd.set_name = sd.set_name) :
    ∃ cd', update_cluster_description cd sd = Except.ok cd' ∧
      cd'.servers = replaceEntry sd.address sd cd.servers ++
        fresh_entries (missing_hosts (keys cd.servers) sd.all_hosts) ∧
      cd'.set_name = sd.set_name ∧
      (∀ a : Address, cd.has_server a = true → cd'.has_server a = true) ∧
      (∀ p : Address × ServerDescription, p ∈ cd.servers → p.1 ≠ sd.address → p ∈ cd'.servers) := by
  have hstep : update_cluster_description cd sd =
      update_rs_without_primary
        { cd with servers := replaceEntry sd.address sd cd.servers } sd := by
    rw [update_cluster_description, ClusterDescription.replace_server_description,
      if_pos h3, pyBind_ok, update_after_replace, if_neg (by simp [h1]),
      update_unknown_phase, if_neg (by simp [h1]), pyBind_ok, dispatch_phase,
      if_neg (by simp [h1]), if_pos (show _ from h1)]
    rcases h2 with h2 | h2 | h2 <;>
      rw [if_neg (by simp [h2]), if_neg (by simp [h2]), if_pos (by simp [h2])]
  have hservers :
      ∀ cd' : ClusterDescription,
        cd'.servers = replaceEntry sd.address sd cd.servers ++
          fresh_entries (missing_hosts (keys cd.servers) sd.all_hosts) →
        (∀ a : Address, cd.has_server a = true → cd'.has_server a = true) ∧
        (∀ p : Address × ServerDescription, p ∈ cd.servers → p.1 ≠ sd.address →
          p ∈ cd'.servers) := by
    intro cd' hs
    constructor
    · intro a ha
      rw [ClusterDescription.has_server, hasAddress_iff] at ha ⊢
      rw [hs, keys_append, keys_replaceEntry]
      exact List.mem_append_left _ ha
    · intro p hp hne
      rw [hs]
      exact List.mem_append_left _ (mem_replaceEntry_of_ne hp hne)
  by_cases hn : cd.set_name = none
  · rw [hstep, update_rs_without_primary, if_pos (show _ from hn), add_new_hosts_eq]
    refine ⟨_, rfl, ?_, rfl, ?_, ?_⟩
    · simp [keys_replaceEntry]
    · exact (hservers _ (by simp [keys_replaceEntry])).1
    · exact (hservers _ (by simp [keys_replaceEntry])).2
  · have h4' : cd.set_name = sd.set_name := h4.resolve_left hn
    rw [hstep, update_rs_without_primary, if_neg (show _ from hn),
      if_pos (show _ from h4'), add_new_hosts_eq]
    refine ⟨_, rfl, ?_, h4', ?_, ?_⟩
    · simp [keys_replaceEntry]
    · exact (hservers _ (by simp [keys_replaceEntry])).1
    · exact (hservers _ (by simp [keys_replaceEntry])).2

end Pymongo

namespace Pymongo

/-! ## Claim C10: totality of the transition function -/

theorem reset_prior_primary_ok (cd : ClusterDescription) (addr : Address) :
    ∃ cd', reset_prior_primary cd addr = Except.ok cd' := by
  rw [reset_prior_primary]
  cases hf : cd.servers.find?
      (fun p => decide (p.1 ≠ addr ∧ p.2.server_type = ServerType.RSPrimary)) with
  | none => exact ⟨cd, rfl⟩
  | some p =>
    have hm : p ∈ cd.servers := List.mem_of_find?_eq_some hf
    have hh : cd.has_server (ServerDescription.mkUnknown p.1).address = true := by
      rw [ClusterDescription.has_server, hasAddress_iff, keys]
      exact List.mem_map_of_mem Prod.fst hm
    show ∃ cd',
      cd.replace_server_description (ServerDescription.mkUnknown p.1) = Except.ok cd'
    rw [ClusterDescription.replace_server_description, if_pos hh]
    exact ⟨_, rfl⟩

theorem primary_membership_update_ok (cd : ClusterDescription) (sd : ServerDescription) :
    ∃ cd', primary_membership_update cd sd = Except.ok cd' := by
  obtain ⟨cd1, h1⟩ := reset_prior_primary_ok cd sd.address
  rw [primary_membership_update, h1, pyBind_ok, add_new_hosts_eq, pyBind_ok]
  exact ⟨_, rfl⟩

theorem update_rs_with_primary_from_primary_ok (cd : ClusterDescription) (sd : ServerDescription) :
    ∃ cd', update_rs_with_primary_from_primary cd sd = Except.ok cd' := by
  rw [update_rs_with_primary_from_primary]
  by_cases hn : cd.set_name = none
  · rw [if_pos hn]
    exact primary_membership_update_ok _ _
  · rw [if_neg hn]
    by_cases he : cd.set_name = sd.set_name
    · rw [if_pos he]
      exact primary_membership_update_ok _ _
    · rw [if_neg he]
      exact ⟨_, rfl⟩

theorem update_rs_without_primary_ok (cd : ClusterDescription) (sd : ServerDescription) :
    ∃ cd', update_rs_without_primary cd sd = Except.ok cd' := by
  rw [update_rs_without_primary]
  by_cases hn : cd.set_name = none
  · rw [if_pos hn, add_new_hosts_eq]
    exact ⟨_, rfl⟩
  · rw [if_neg hn]
    by_cases he : cd.set_name = sd.set_name
    · rw [if_pos he, add_new_hosts_eq]
      exact ⟨_, rfl⟩
    · rw [if_neg he]
      exact ⟨_, rfl⟩

theorem check_has_primary_ok (cd : ClusterDescription)
    (h : cd.cluster_type = ClusterType.ReplicaSetWithPrimary) :
    ∃ cd', check_has_primary cd = Except.ok cd' := by
  rw [check_has_primary, if_pos h]
  exact ⟨_, rfl⟩

theorem update_unknown_phase_ok (cd : ClusterDescription) (sd : ServerDescription) :
    ∃ cd', update_unknown_phase cd sd = Except.ok cd' := by
  rw [update_unknown_phase]
  by_cases hu : cd.cluster_type = ClusterType.Unknown
  · rw [if_pos hu]
    by_cases hs : sd.server_type = ServerType.Standalone
    · rw [if_pos hs]
      exact ⟨_, rfl⟩
    · rw [if_neg hs]
      by_cases hg : sd.server_type = ServerType.Unknown ∨ sd.server_type = ServerType.RSGhost
      · rw [if_pos hg]
        exact ⟨_, rfl⟩
      · rw [if_neg hg]
        cases ht : sd.server_type <;> simp_all [cluster_types, pyBind_ok]
  · rw [if_neg hu]
    exact ⟨_, rfl⟩

theorem update_unknown_phase_spec (cd : ClusterDescription) (sd : ServerDescription)
    (cd1 : ClusterDescription) (h : update_unknown_phase cd sd = Except.ok cd1) :
    cd1.set_name = cd.set_name ∧
    (cd1.cluster_type = ClusterType.ReplicaSetWithPrimary →
      cd.cluster_type = ClusterType.ReplicaSetWithPrimary ∨
        sd.server_type = ServerType.RSPrimary) := by
  rw [update_unknown_phase] at h
  by_cases hu : cd.cluster_type = ClusterType.Unknown
  · rw [if_pos hu] at h
    by_cases hs : sd.server_type = ServerType.Standalone
    · rw [if_pos hs] at h
      injection h with h
      subst h
      exact ⟨rfl, fun hw => absurd hw (by simp [ClusterDescription.remove_address, hu])⟩
    · rw [if_neg hs] at h
      by_cases hg : sd.server_type = ServerType.Unknown ∨ sd.server_type = ServerType.RSGhost
      · rw [if_pos hg] at h
        injection h with h
        subst h
        exact ⟨rfl, fun hw => absurd hw (by simp [hu])⟩
      · rw [if_neg hg] at h
        cases ht : sd.server_type <;> rw [ht] at h <;>
          simp only [cluster_types, pyBind_ok] at h <;>
          first
            | (injection h with h; subst h; simp_all)
            | simp_all
  · rw [if_neg hu] at h
    injection h with h
    subst h
    exact ⟨rfl, fun hw => Or.inl hw⟩

theorem dispatch_phase_ok (cd : ClusterDescription) (sd : ServerDescription)
    (h : cd.cluster_type = ClusterType.ReplicaSetWithPrimary →
      (sd.server_type = ServerType.RSSecondary ∨ sd.server_type = ServerType.RSArbiter ∨
        sd.server_type = ServerType.RSOther) → cd.set_name ≠ none) :
    ∃ cd', dispatch_phase cd sd = Except.ok cd' := by
  rw [dispatch_phase]
  by_cases hsh : cd.cluster_type = ClusterType.Sharded
  · rw [if_pos hsh]
    exact ⟨_, rfl⟩
  · rw [if_neg hsh]
    by_cases hnp : cd.cluster_type = ClusterType.ReplicaSetNoPrimary
    · rw [if_pos hnp]
      by_cases hsm : sd.server_type = ServerType.Standalone ∨ sd.server_type = ServerType.Mongos
      · rw [if_pos hsm]
        exact ⟨_, rfl⟩
      · rw [if_neg hsm]
        by_cases hp : sd.server_type = ServerType.RSPrimary
        · rw [if_pos hp]
          exact update_rs_with_primary_from_primary_ok _ _
        · rw [if_neg hp]
          by_cases htrio : sd.server_type = ServerType.RSSecondary ∨
              sd.server_type = ServerType.RSArbiter ∨ sd.server_type = ServerType.RSOther
          · rw [if_pos htrio]
            exact update_rs_without_primary_ok _ _
          · rw [if_neg htrio]
            exact ⟨_, rfl⟩
    · rw [if_neg hnp]
      by_cases hwp : cd.cluster_type = ClusterType.ReplicaSetWithPrimary
      · rw [if_pos hwp]
        by_cases hsm : sd.server_type = ServerType.Standalone ∨ sd.server_type = ServerType.Mongos
        · rw [if_pos hsm]
          exact check_has_primary_ok _ hwp
        · rw [if_neg hsm]
          by_cases hp : sd.server_type = ServerType.RSPrimary
          · rw [if_pos hp]
            exact update_rs_with_primary_from_primary_ok _ _
          · rw [if_neg hp]
            by_cases htrio : sd.server_type = ServerType.RSSecondary ∨
                sd.server_type = ServerType.RSArbiter ∨ sd.server_type = ServerType.RSOther
            · rw [if_pos htrio, update_rs_with_primary_from_member,
                if_neg (h hwp htrio)]
              by_cases hsn : cd.set_name = sd.set_name
              · rw [if_pos hsn]
                exact check_has_primary_ok _ hwp
              · rw [if_neg hsn]
                exact check_has_primary_ok _ hwp
            · rw [if_neg htrio]
              exact check_has_primary_ok _ hwp
      · rw [if_neg hwp]
        exact ⟨_, rfl⟩

/-- Claim C10 (amended): for every ClusterDescription `cd` with
`sd.address` in its servers map — and, as the counterexample below forces,
whose set name is known whenever its type is `ReplicaSetWithPrimary` — the
transition function is total: no internal assertion fires and nothing is
raised. -/
theorem claim_C10_transition_total (cd : ClusterDescription) (sd : ServerDescription)
    (h1 : cd.has_server sd.address = true)
    (h2 : cd.cluster_type = ClusterType.ReplicaSetWithPrimary → cd.set_name ≠ none) :
    ∃ cd', update_cluster_description cd sd = Except.ok cd' := by
  rw [update_cluster_description, ClusterDescription.replace_server_description,
    if_pos h1, pyBind_ok, update_after_replace]
  by_cases hs : cd.cluster_type = ClusterType.Single
  · rw [if_pos (show _ from hs)]
    exact ⟨_, rfl⟩
  · rw [if_neg (show _ from hs)]
    obtain ⟨cd1, hu⟩ :=
      update_unknown_phase_ok { cd with servers := replaceEntry sd.address sd cd.servers } sd
    rw [hu, pyBind_ok]
    obtain ⟨hsn, hcp⟩ := update_unknown_phase_spec _ _ _ hu
    apply dispatch_phase_ok
    intro hwp htrio
    rcases hcp hwp with horig | hprim
    · rw [hsn]
      exact h2 horig
    · rcases htrio with ht | ht | ht <;> rw [hprim] at ht <;> simp_all

/-- The description that falsifies C10 as stated: type
`ReplicaSetWithPrimary` but no set name. -/
def C10_cd : ClusterDescription :=
  { cluster_type := ClusterType.ReplicaSetWithPrimary
    set_name := none
    servers := [(("a", 27017), ServerDescription.mkUnknown ("a", 27017))] }

/-- A secondary's response for the address `C10_cd` holds. -/
def C10_sd : ServerDescription :=
  { address := ("a", 27017)
    server_type := ServerType.RSSecondary
    set_name := some "rs"
    all_hosts := [("a", 27017)] }

/-- Counterexample to C10 as stated: `sd.address` is in the map and the
description is unfrozen, yet the transition raises — the
`assert cd.set_name is not None` of `_update_rs_with_primary_from_member`
(line 268) fires. -/
theorem claim_C10_counterexample :
    C10_cd.has_server C10_sd.address = true ∧
    update_cluster_description C10_cd C10_sd = Except.error PyError.assertionError := by
  decide

/-- A topology satisfying the amended hypothesis. -/
def C10_wcd : ClusterDescription :=
  { cluster_type := ClusterType.ReplicaSetWithPrimary
    set_name := some "rs"
    servers := [(("a", 27017), ServerDescription.mkUnknown ("a", 27017))] }

/-- A secondary's response used by the C10 witness. -/
def C10_wsd : ServerDescription :=
  { address := ("a", 27017)
    server_type := ServerType.RSSecondary
    set_name := some "rs"
    all_hosts := [("a", 27017)] }

theorem claim_C10_witness :
    ∃ cd', update_cluster_description C10_wcd C10_wsd = Except.ok cd' :=
  claim_C10_transition_total C10_wcd C10_wsd (by decide) (by decide)

end Pymongo

namespace Pymongo

/-- The topology used by the C8 witness. -/
def C8_cd : ClusterDescription :=
  { cluster_type := ClusterType.ReplicaSetNoPrimary
    set_name := some "rs"
    servers := [(("a", 27017), ServerDescription.mkUnknown ("a", 27017))] }

/-- A secondary's response naming a new host `b`. -/
def C8_sd : ServerDescription :=
  { address := ("a", 27017)
    server_type := ServerType.RSSecondary
    set_name := some "rs"
    all_hosts := [("a", 27017), ("b", 27017)] }

theorem claim_C8_witness :
    ∃ cd', update_cluster_description C8_cd C8_sd = Except.ok cd' ∧
      cd'.servers = replaceEntry C8_sd.address C8_sd C8_cd.servers ++
        fresh_entries (missing_hosts (keys C8_cd.servers) C8_sd.all_hosts) ∧
      cd'.set_name = C8_sd.set_name ∧
      (∀ a : Address, C8_cd.has_server a = true → cd'.has_server a = true) ∧
      (∀ p : Address × ServerDescription, p ∈ C8_cd.servers → p.1 ≠ C8_sd.address →
        p ∈ cd'.servers) :=
  claim_C8_without_primary_frame C8_cd C8_sd (by decide) (by decide) (by decide) (by decide)

end Pymongo

namespace Pymongo

/-! ## Claim C3: the primary-update membership rewrite -/

theorem reset_all_eq_self {addr : Address} {l : ServerMap}
    (h : ∀ p ∈ l, ¬(p.1 ≠ addr ∧ p.2.server_type = ServerType.RSPrimary)) :
    reset_all_other_primaries addr l = l := by
  induction l with
  | nil => rfl
  | cons p rest ih =>
    rw [reset_all_other_primaries, List.map_cons, if_neg (h p (by simp))]
    have htail := ih fun q hq => h q (List.mem_cons_of_mem _ hq)
    rw [reset_all_other_primaries] at htail
    rw [htail]

/-- When at most one entry away from `addr` is an `RSPrimary`, replacing the
first such entry (the source's break-after-one loop) agrees with replacing
all of them (the claim's description). -/
theorem reset_first_eq_all (addr : Address) (l : ServerMap)
    (hnd : (keys l).Nodup)
    (hone : (l.filter fun p =>
      decide (p.1 ≠ addr ∧ p.2.server_type = ServerType.RSPrimary)).length ≤ 1) :
    (match l.find? (fun p => decide (p.1 ≠ addr ∧ p.2.server_type = ServerType.RSPrimary)) with
     | some p => replaceEntry p.1 (ServerDescription.mkUnknown p.1) l
     | none => l) = reset_all_other_primaries addr l := by
  induction l with
  | nil => rfl
  | cons p rest ih =>
    rw [keys, List.map_cons, List.nodup_cons] at hnd
    obtain ⟨hpk, hndr⟩ := hnd
    by_cases hf : (p.1 ≠ addr ∧ p.2.server_type = ServerType.RSPrimary)
    · rw [List.find?_cons_of_pos _ (by simpa using hf)]
      have hfilter : (rest.filter fun q =>
          decide (q.1 ≠ addr ∧ q.2.server_type = ServerType.RSPrimary)) = [] := by
        rw [List.filter_cons_of_pos (by simpa using hf)] at hone
        simp only [List.length_cons] at hone
        exact List.length_eq_zero.mp (by omega)
      have hrest : ∀ q ∈ rest, ¬(q.1 ≠ addr ∧ q.2.server_type = ServerType.RSPrimary) := by
        intro q hq
        have hfq := List.filter_eq_nil_iff.mp hfilter q hq
        simpa using hfq
      show replaceEntry p.1 (ServerDescription.mkUnknown p.1) (p :: rest) = _
      rw [replaceEntry, List.map_cons, if_pos rfl]
      have hrepl : replaceEntry p.1 (ServerDescription.mkUnknown p.1) rest = rest :=
        replaceEntry_of_not_mem _ (by simpa [keys] using hpk)
      rw [replaceEntry] at hrepl
      rw [hrepl, reset_all_other_primaries, List.map_cons, if_pos hf]
      have hall := reset_all_eq_self hrest
      rw [reset_all_other_primaries] at hall
      rw [hall]
    · rw [List.find?_cons_of_neg _ (by simpa using hf)]
      have hone' : (rest.filter fun q =>
          decide (q.1 ≠ addr ∧ q.2.server_type = ServerType.RSPrimary)).length ≤ 1 := by
        rwa [List.filter_cons_of_neg (by simpa using hf)] at hone
      have ihr := ih (by simpa [keys] using hndr) hone'
      rw [reset_all_other_primaries, List.map_cons, if_neg hf]
      cases hrest : rest.find?
          (fun q => decide (q.1 ≠ addr ∧ q.2.server_type = ServerType.RSPrimary)) with
      | none =>
        rw [hrest] at ihr
        rw [reset_all_other_primaries] at ihr
        show p :: rest = _
        rw [← ihr]
      | some q =>
        rw [hrest] at ihr
        have hq : q ∈ rest := List.mem_of_find?_eq_some hrest
        have hqk : q.1 ∈ keys rest := List.mem_map_of_mem Prod.fst hq
        have hpq : p.1 ≠ q.1 := fun he => hpk (by simpa [keys, he] using hqk)
        have ihr' : replaceEntry q.1 (ServerDescription.mkUnknown q.1) rest =
            reset_all_other_primaries addr rest := ihr
        show replaceEntry q.1 (ServerDescription.mkUnknown q.1) (p :: rest) = _
        simp only [replaceEntry, List.map_cons]
        rw [if_neg hpq]
        rw [replaceEntry, reset_all_other_primaries] at ihr'
        rw [ihr']

/-- Lifting of `reset_first_eq_all` to `reset_prior_primary`. -/
theorem reset_prior_primary_eq (cd : ClusterDescription) (addr : Address)
    (hnd : (keys cd.servers).Nodup)
    (hone : (cd.servers.filter fun p =>
      decide (p.1 ≠ addr ∧ p.2.server_type = ServerType.RSPrimary)).length ≤ 1) :
    reset_prior_primary cd addr =
      Except.ok { cd with servers := reset_all_other_primaries addr cd.servers } := by
  have hmain := reset_first_eq_all addr cd.servers hnd hone
  rw [reset_prior_primary]
  cases hf : cd.servers.find?
      (fun p => decide (p.1 ≠ addr ∧ p.2.server_type = ServerType.RSPrimary)) with
  | none =>
    rw [hf] at hmain
    rw [← hmain]
  | some p =>
    rw [hf] at hmain
    have hm : p ∈ cd.servers := List.mem_of_find?_eq_some hf
    have hh : cd.has_server (ServerDescription.mkUnknown p.1).address = true := by
      rw [ClusterDescription.has_server, hasAddress_iff, keys]
      exact List.mem_map_of_mem Prod.fst hm
    show cd.replace_server_description (ServerDescription.mkUnknown p.1) =
      Except.ok { cd with servers := reset_all_other_primaries addr cd.servers }
    rw [ClusterDescription.replace_server_description, if_pos hh, ← hmain]
    rfl

/-- Storing the new primary at its own address changes no entry at another
address, so it leaves the count of other primaries unchanged. -/
theorem filter_other_primary_replaceEntry (sd : ServerDescription) (l : ServerMap) :
    ((replaceEntry sd.address sd l).filter fun p =>
        decide (p.1 ≠ sd.address ∧ p.2.server_type = ServerType.RSPrimary)) =
      (l.filter fun p =>
        decide (p.1 ≠ sd.address ∧ p.2.server_type = ServerType.RSPrimary)) := by
  induction l with
  | nil => rfl
  | cons p rest ih =>
    rw [replaceEntry, List.map_cons]
    rw [replaceEntry] at ih
    by_cases hp : p.1 = sd.address
    · rw [if_pos hp,
        List.filter_cons_of_neg (by simp),
        List.filter_cons_of_neg (by simp [hp]), ih]
    · rw [if_neg hp]
      by_cases hc : p.2.server_type = ServerType.RSPrimary
      · rw [List.filter_cons_of_pos (by simp [hp, hc]),
          List.filter_cons_of_pos (by simp [hp, hc]), ih]
      · rw [List.filter_cons_of_neg (by simp [hc]),
          List.filter_cons_of_neg (by simp [hc]), ih]

end Pymongo

namespace Pymongo

/-- What `_update_rs_with_primary_from_primary` does when the set name
matches (or is adopted) and at most one other entry is a stale primary. -/
theorem update_rs_with_primary_from_primary_spec (cdX : ClusterDescription)
    (sd : ServerDescription)
    (h4 : cdX.set_name = none ∨ cdX.set_name = sd.set_name)
    (h5 : (cdX.servers.filter fun p =>
      decide (p.1 ≠ sd.address ∧ p.2.server_type = ServerType.RSPrimary)).length ≤ 1)
    (h6 : (keys cdX.servers).Nodup) :
    ∃ cd', update_rs_with_primary_from_primary cdX sd = Except.ok cd' ∧
      cd'.servers =
        (reset_all_other_primaries sd.address cdX.servers ++
          fresh_entries (missing_hosts
            (keys (reset_all_other_primaries sd.address cdX.servers)) sd.all_hosts)).filter
          (fun p => decide (p.1 ∈ sd.all_hosts)) ∧
      cd'.set_name = sd.set_name := by
  by_cases hn : cdX.set_name = none
  · rw [update_rs_with_primary_from_primary, if_pos hn, primary_membership_update,
      reset_prior_primary_eq
        (ClusterDescription.mk cdX.cluster_type sd.set_name cdX.servers) sd.address h6 h5,
      pyBind_ok, add_new_hosts_eq, pyBind_ok]
    exact ⟨_, rfl, rfl, rfl⟩
  · obtain h4' := h4.resolve_left hn
    rw [update_rs_with_primary_from_primary, if_neg hn, if_pos h4',
      primary_membership_update, reset_prior_primary_eq cdX sd.address h6 h5,
      pyBind_ok, add_new_hosts_eq, pyBind_ok]
    exact ⟨_, rfl, rfl, h4'⟩

end Pymongo

namespace Pymongo

/-- Claim C3 (amended): from a replica-set or Unknown cluster type, an
`RSPrimary` response with a matching (or adopted) set name — against a
well-formed map holding at most one other primary, which is all the driver
ever produces — rewrites the membership exactly as described: the new
primary is stored; every other stale primary is downgraded to a fresh
`Unknown` description (losing its round-trip history); every reported host
not yet present is inserted as a fresh `Unknown`; and every address the
primary did not report is removed. -/
theorem claim_C3_primary_update (cd : ClusterDescription) (sd : ServerDescription)
    (h1 : cd.cluster_type = ClusterType.Unknown ∨
      cd.cluster_type = ClusterType.ReplicaSetNoPrimary ∨
      cd.cluster_type = ClusterType.ReplicaSetWithPrimary)
    (h2 : sd.server_type = ServerType.RSPrimary)
    (h3 : cd.has_server sd.address = true)
    (h4 : cd.set_name = none ∨ cd.set_name = sd.set_name)
    (h5 : (cd.servers.filter fun p =>
      decide (p.1 ≠ sd.address ∧ p.2.server_type = ServerType.RSPrimary)).length ≤ 1)
    (h6 : (keys cd.servers).Nodup) :
    ∃ cd', update_cluster_description cd sd = Except.ok cd' ∧
      cd'.servers = primary_update_result_servers cd sd ∧
      cd'.set_name = sd.set_name := by
  have hstep : update_cluster_description cd sd =
      update_rs_with_primary_from_primary
        (ClusterDescription.mk ClusterType.ReplicaSetWithPrimary cd.set_name
          (replaceEntry sd.address sd cd.servers)) sd := by
    rcases h1 with h1 | h1 | h1 <;>
      simp [update_cluster_description, ClusterDescription.replace_server_description,
        if_pos h3, pyBind_ok, update_after_replace, update_unknown_phase, dispatch_phase,
        h1, h2, cluster_types]
  have h5W : (((ClusterDescription.mk ClusterType.ReplicaSetWithPrimary cd.set_name
      (replaceEntry sd.address sd cd.servers)).servers).filter fun p =>
      decide (p.1 ≠ sd.address ∧ p.2.server_type = ServerType.RSPrimary)).length ≤ 1 := by
    show (((replaceEntry sd.address sd cd.servers)).filter fun p =>
      decide (p.1 ≠ sd.address ∧ p.2.server_type = ServerType.RSPrimary)).length ≤ 1
    rw [filter_other_primary_replaceEntry]
    exact h5
  have h6W : (keys (ClusterDescription.mk ClusterType.ReplicaSetWithPrimary cd.set_name
      (replaceEntry sd.address sd cd.servers)).servers).Nodup := by
    show (keys (replaceEntry sd.address sd cd.servers)).Nodup
    rw [keys_replaceEntry]
    exact h6
  obtain ⟨cd', hok, hsrv, hsn⟩ := update_rs_with_primary_from_primary_spec
    (ClusterDescription.mk ClusterType.ReplicaSetWithPrimary cd.set_name
      (replaceEntry sd.address sd cd.servers)) sd h4 h5W h6W
  refine ⟨cd', hstep ▸ hok, ?_, hsn⟩
  rw [hsrv]
  rfl

end Pymongo

namespace Pymongo

/-- A stale primary at `b` used by the C3 counterexample. -/
def C3_primB : ServerDescription :=
  { address := ("b", 27017)
    server_type := ServerType.RSPrimary
    set_name := some "rs" }

/-- A second stale primary at `c` used by the C3 counterexample. -/
def C3_primC : ServerDescription :=
  { address := ("c", 27017)
    server_type := ServerType.RSPrimary
    set_name := some "rs" }

/-- A description holding two stale primaries besides `a`. -/
def C3_cd : ClusterDescription :=
  { cluster_type := ClusterType.ReplicaSetWithPrimary
    set_name := some "rs"
    servers := [(("a", 27017), ServerDescription.mkUnknown ("a", 27017)),
      (("b", 27017), C3_primB), (("c", 27017), C3_primC)] }

/-- A matching new primary at `a` reporting all three hosts. -/
def C3_sd : ServerDescription :=
  { address := ("a", 27017)
    server_type := ServerType.RSPrimary
    set_name := some "rs"
    all_hosts := [("a", 27017), ("b", 27017), ("c", 27017)] }

/-- Counterexample to C3 as stated: `C3_cd` is a replica-set description,
`C3_sd` a matching primary whose address is present, yet after the
transition the *second* other `RSPrimary` (at `c`) keeps its old
description — the source loop (line 253) breaks after resetting the first
one — so «replaces every other server currently typed RSPrimary with a
fresh Unknown» fails at `c`. -/
theorem claim_C3_counterexample :
    C3_cd.has_server C3_sd.address = true ∧
    C3_cd.set_name = C3_sd.set_name ∧
    (("c", 27017), C3_primC) ∈ C3_cd.servers ∧
    C3_primC.server_type = ServerType.RSPrimary ∧
    ("c", 27017) ≠ C3_sd.address ∧
    (∃ cd', update_cluster_description C3_cd C3_sd = Except.ok cd' ∧
      (("c", 27017), C3_primC) ∈ cd'.servers ∧
      (("c", 27017), ServerDescription.mkUnknown ("c", 27017)) ∉ cd'.servers) := by
  refine ⟨by decide, by decide, by decide, by decide, by decide, ?_⟩
  refine ⟨_, rfl, by decide, by decide⟩

/-- The seed-like description of the C3 witness (spec scenario 3: seeds
`{a,b}`, set name `"rs"`). -/
def C3w_cd : ClusterDescription :=
  { cluster_type := ClusterType.ReplicaSetNoPrimary
    set_name := some "rs"
    servers := [(("a", 27017), ServerDescription.mkUnknown ("a", 27017)),
      (("b", 27017), ServerDescription.mkUnknown ("b", 27017))] }

/-- The primary's response of the C3 witness: hosts `a` and `c`. -/
def C3w_sd : ServerDescription :=
  { address := ("a", 27017)
    server_type := ServerType.RSPrimary
    set_name := some "rs"
    all_hosts := [("a", 27017), ("c", 27017)] }

theorem claim_C3_witness :
    ∃ cd', update_cluster_description C3w_cd C3w_sd = Except.ok cd' ∧
      cd'.servers = primary_update_result_servers C3w_cd C3w_sd ∧
      cd'.set_name = C3w_sd.set_name :=
  claim_C3_primary_update C3w_cd C3w_sd (by decide) (by decide) (by decide)
    (by decide) (by decide) (by decide)

end Pymongo

namespace Pymongo

/-! ## Claim C6: the wire-version compatibility gate of selectServers -/

theorem check_compatible_one_error_of_incompatible (s : ServerDescription)
    (minSup maxSup mn mx : Int)
    (hmn : s.min_wire_version = some mn) (hmx : s.max_wire_version = some mx)
    (hbad : maxSup < mn ∨ mx < minSup) :
    check_compatible_one s minSup maxSup =
      Except.error (PyError.configurationError
        (compat_error_message s.address mn mx minSup maxSup)) := by
  rw [check_compatible_one]
  simp only [hmn, hmx]
  rw [if_pos (by simpa using hbad)]

theorem check_compatible_one_ok_of_not (s : ServerDescription) (minSup maxSup : Int)
    (hwf : s.min_wire_version = none ↔ s.max_wire_version = none)
    (h : ¬ ∃ mn mx, s.min_wire_version = some mn ∧ s.max_wire_version = some mx ∧
      (maxSup < mn ∨ mx < minSup)) :
    check_compatible_one s minSup maxSup = Except.ok () := by
  rw [check_compatible_one]
  cases hmn : s.min_wire_version with
  | none =>
    have hmx : s.max_wire_version = none := hwf.mp hmn
    simp [hmn, hmx]
  | some mn =>
    cases hmx : s.max_wire_version with
    | none => exact absurd (hwf.mpr hmx) (by simp [hmn])
    | some mx =>
      have h1a : ¬(maxSup < mn) := fun hc => h ⟨mn, mx, hmn, hmx, Or.inl hc⟩
      have h1b : ¬(mx < minSup) := fun hc => h ⟨mn, mx, hmn, hmx, Or.inr hc⟩
      simp [hmn, hmx, h1a, h1b]

/-- The full characterisation of the `check_compatible` scan over a map
whose entries set both wire bounds or neither (which is all the driver
produces: parsing defaults both to `0`; a virgin description has both
`None`). -/
theorem check_compatible_list_spec (l : ServerMap) (minSup maxSup : Int)
    (hwf : ∀ p ∈ l, (p.2.min_wire_version = none ↔ p.2.max_wire_version = none)) :
    ((∃ msg, check_compatible_list l minSup maxSup =
        Except.error (PyError.configurationError msg)) ↔
      ∃ p ∈ l, ∃ mn mx, p.2.min_wire_version = some mn ∧
        p.2.max_wire_version = some mx ∧ (maxSup < mn ∨ mx < minSup)) ∧
    (∀ msg, check_compatible_list l minSup maxSup =
        Except.error (PyError.configurationError msg) →
      ∃ p ∈ l, ∃ mn mx, p.2.min_wire_version = some mn ∧
        p.2.max_wire_version = some mx ∧ (maxSup < mn ∨ mx < minSup) ∧
        msg = compat_error_message p.2.address mn mx minSup maxSup) := by
  induction l with
  | nil =>
    constructor
    · constructor
      · rintro ⟨msg, h⟩
        cases h
      · rintro ⟨p, hp, _⟩
        cases hp
    · intro msg h
      cases h
  | cons p rest ih =>
    have hwfp := hwf p (List.mem_cons_self p rest)
    have hwfr : ∀ q ∈ rest, (q.2.min_wire_version = none ↔ q.2.max_wire_version = none) :=
      fun q hq => hwf q (List.mem_cons_of_mem _ hq)
    obtain ⟨ih1, ih2⟩ := ih hwfr
    by_cases hinc : ∃ mn mx, p.2.min_wire_version = some mn ∧
        p.2.max_wire_version = some mx ∧ (maxSup < mn ∨ mx < minSup)
    · obtain ⟨mn, mx, hmn, hmx, hbad⟩ := hinc
      have herr := check_compatible_one_error_of_incompatible p.2 minSup maxSup mn mx hmn hmx hbad
      rw [check_compatible_list, herr, pyBind_error]
      refine ⟨⟨fun _ => ⟨p, List.mem_cons_self p rest, mn, mx, hmn, hmx, hbad⟩,
        fun _ => ⟨_, rfl⟩⟩, ?_⟩
      intro msg h
      injection h with h
      injection h with h
      exact ⟨p, List.mem_cons_self p rest, mn, mx, hmn, hmx, hbad, h.symm⟩
    · have hok := check_compatible_one_ok_of_not p.2 minSup maxSup hwfp hinc
      rw [check_compatible_list, hok, pyBind_ok]
      constructor
      · constructor
        · intro h
          obtain ⟨q, hq, hspec⟩ := ih1.mp h
          exact ⟨q, List.mem_cons_of_mem _ hq, hspec⟩
        · rintro ⟨q, hq, hspec⟩
          rcases List.mem_cons.mp hq with hq | hq
          · exact absurd (hq ▸ hspec) hinc
          · exact ih1.mpr ⟨q, hq, hspec⟩
      · intro msg h
        obtain ⟨q, hq, hspec⟩ := ih2 msg h
        exact ⟨q, List.mem_cons_of_mem _ hq, hspec⟩

/-- Claim C6: selection fails with a Configuration error exactly when some
server with its wire bounds set is out of range, and the message carries
the offending `host:port` and the `"wire protocol versions m through n"`
fragment.  `Cluster.select_servers` calls `check_compatible()` first
(cluster.py line 59), the sole source of `ConfigurationError` in
selection; the driver's supported range is passed as `minSup`/`maxSup`. -/
theorem claim_C6_wire_version_gate (cd : ClusterDescription) (minSup maxSup : Int)
    (hwf : ∀ p ∈ cd.servers, (p.2.min_wire_version = none ↔ p.2.max_wire_version = none)) :
    ((∃ msg, cd.check_compatible minSup maxSup =
        Except.error (PyError.configurationError msg)) ↔
      ∃ p ∈ cd.servers, ∃ mn mx, p.2.min_wire_version = some mn ∧
        p.2.max_wire_version = some mx ∧ (maxSup < mn ∨ mx < minSup)) ∧
    (∀ msg, cd.check_compatible minSup maxSup =
        Except.error (PyError.configurationError msg) →
      ∃ p ∈ cd.servers, ∃ mn mx, p.2.min_wire_version = some mn ∧
        p.2.max_wire_version = some mx ∧ (maxSup < mn ∨ mx < minSup) ∧
        (∃ u v, msg.data = u ++ (host_port_clause p.2.address).data ++ v) ∧
        (∃ u v, msg.data = u ++ (wire_range_clause mn mx).data ++ v)) := by
  obtain ⟨hiff, hmsg⟩ := check_compatible_list_spec cd.servers minSup maxSup hwf
  refine ⟨hiff, ?_⟩
  intro msg h
  obtain ⟨p, hp, mn, mx, hmn, hmx, hbad, heq⟩ := hmsg msg h
  refine ⟨p, hp, mn, mx, hmn, hmx, hbad, ?_, ?_⟩
  · refine ⟨("Server at ").data, (" uses " ++ wire_range_clause mn mx ++
      ", but PyMongo only supports " ++ toString minSup ++ " through " ++
      toString maxSup).data, ?_⟩
    rw [heq]
    simp [compat_error_message, String.data_append, List.append_assoc]
  · refine ⟨("Server at " ++ host_port_clause p.2.address ++ " uses ").data,
      (", but PyMongo only supports " ++ toString minSup ++ " through " ++
      toString maxSup).data, ?_⟩
    rw [heq]
    simp [compat_error_message, String.data_append, List.append_assoc]

/-- The incompatible server of the C6 witness (spec scenario 6). -/
def C6_srv : ServerDescription :=
  { address := ("a", 27017)
    server_type := ServerType.RSPrimary
    set_name := some "rs"
    all_hosts := [("a", 27017)]
    min_wire_version := some 11
    max_wire_version := some 12 }

/-- A topology holding only the incompatible server. -/
def C6_cd : ClusterDescription :=
  { cluster_type := ClusterType.ReplicaSetWithPrimary
    set_name := some "rs"
    servers := [(("a", 27017), C6_srv)] }

theorem claim_C6_witness :
    ∃ msg, C6_cd.check_compatible 0 5 =
      Except.error (PyError.configurationError msg) :=
  (claim_C6_wire_version_gate C6_cd 0 5 (by decide)).1.mpr
    ⟨(("a", 27017), C6_srv), by decide, 11, 12, rfl, rfl, by decide⟩

end Pymongo

namespace Pymongo

/-! ## Claim C5: probeWithRetry -/

end Pymongo

namespace Pymongo

/-! ## Claim C2: the classifier cascade -/

/-- The document falsifying C2 as stated: `ok = 2`. -/
def C2_doc : IsMasterDoc :=
  { ok := some 2 }

/-- Counterexample to C2 as stated: the classifier tests `ok` with Python
truthiness (`if not doc.get('ok')`), not equality with 1.  For `ok = 2` the
claim's «returns Unknown iff d.ok ≠ 1» demands `Unknown`, but the code
proceeds past the guard and returns `Standalone`. -/
theorem claim_C2_counterexample :
    C2_doc.ok ≠ some 1 ∧
    get_server_type C2_doc ≠ ServerType.Unknown ∧
    get_server_type C2_doc = ServerType.Standalone := by
  decide

/-- Claim C2 (amended): the classifier applies the rules top-to-bottom with
Python truthiness in place of the claim's equality/presence tests: it
returns `Unknown` iff `ok` is falsy (absent or zero); otherwise `RSGhost`
iff `isreplicaset` is truthy; otherwise, when `setName` is present and
non-empty, `RSOther` if `hidden` is truthy, else `RSPrimary` if `ismaster`
is truthy, else `RSSecondary` if `secondary` is truthy, else `RSArbiter`
if `arbiterOnly` is truthy, else `RSOther`; otherwise `Mongos` iff
`msg = "isdbgrid"`; otherwise `Standalone`. -/
theorem claim_C2_classifier (d : IsMasterDoc) :
    (get_server_type d = ServerType.Unknown ↔ truthyInt d.ok = false) ∧
    (truthyInt d.ok = true →
      ((get_server_type d = ServerType.RSGhost ↔ truthyBool d.isreplicaset = true) ∧
       (truthyBool d.isreplicaset = false → truthyStr d.setName = true →
         ((truthyBool d.hidden = true → get_server_type d = ServerType.RSOther) ∧
          (truthyBool d.hidden = false → truthyBool d.ismaster = true →
            get_server_type d = ServerType.RSPrimary) ∧
          (truthyBool d.hidden = false → truthyBool d.ismaster = false →
            truthyBool d.secondary = true → get_server_type d = ServerType.RSSecondary) ∧
          (truthyBool d.hidden = false → truthyBool d.ismaster = false →
            truthyBool d.secondary = false → truthyBool d.arbiterOnly = true →
            get_server_type d = ServerType.RSArbiter) ∧
          (truthyBool d.hidden = false → truthyBool d.ismaster = false →
            truthyBool d.secondary = false → truthyBool d.arbiterOnly = false →
            get_server_type d = ServerType.RSOther))) ∧
       (truthyBool d.isreplicaset = false → truthyStr d.setName = false →
         ((get_server_type d = ServerType.Mongos ↔ d.msg = some "isdbgrid") ∧
          (d.msg ≠ some "isdbgrid" → get_server_type d = ServerType.Standalone))))) := by
  by_cases h0 : truthyInt d.ok <;>
    by_cases h1 : truthyBool d.isreplicaset <;>
      by_cases h2 : truthyStr d.setName <;>
        by_cases h3 : truthyBool d.hidden <;>
          by_cases h4 : truthyBool d.ismaster <;>
            by_cases h5 : truthyBool d.secondary <;>
              by_cases h6 : truthyBool d.arbiterOnly <;>
                by_cases h7 : d.msg = some "isdbgrid" <;>
                  simp_all [get_server_type]

/-- The primary document used by the C2 witness. -/
def C2w_doc : IsMasterDoc :=
  { ok := some 1
    setName := some "rs"
    ismaster := some true
    hosts := ["a"] }

theorem claim_C2_witness :
    truthyBool C2w_doc.hidden = false → truthyBool C2w_doc.ismaster = true →
      get_server_type C2w_doc = ServerType.RSPrimary :=
  (((claim_C2_classifier C2w_doc).2 (by decide)).2.1 (by decide) (by decide)).2.1

end Pymongo
